import Mathlib

/-
Verification of the foodgram backend core: shopping-list ingredient
aggregation and short-link code generation/resolution.

The embedding follows src/backend/recipes/models.py for the data model,
src/backend/api/views.py and src/backend/recipes/views.py for the two
shopping-list downloads and the two short-link resolvers,
src/backend/recipes/models.py for generate_code/save, and
src/backend/api/serializers.py for the recipe write validation.

Database rows are lists of records; ORM queries are list operations.
Python exceptions raised by ORM single-object lookups (DoesNotExist,
MultipleObjectsReturned, FieldError) are modelled with Except.
-/

set_option autoImplicit false

namespace Foodgram

/-- Ingredient row (recipes/models.py, class Ingredient): name and
measurement_unit, with a unique constraint on the pair. -/
structure Ingredient where
  id : Nat
  name : String
  measurement_unit : String
deriving DecidableEq, Repr

/-- Recipe row (recipes/models.py, class Recipe). Only the fields the
verified operations read are carried: the primary key and short_code
(CharField, unique, default empty string). -/
structure Recipe where
  id : Nat
  short_code : String
deriving DecidableEq, Repr

/-- Through-table row linking an ingredient to a recipe with an amount
(recipes/models.py, class IngredientRecipe). The table has no uniqueness
constraint on the (ingredient, recipe) pair. -/
structure IngredientRecipe where
  ingredientId : Nat
  recipeId : Nat
  amount : Nat
deriving DecidableEq, Repr

/-- Shopping-cart row (recipes/models.py, class ShoppingCart): association
of a user and a recipe, with a UniqueConstraint on the pair at the
database level. -/
structure ShoppingCart where
  userId : Nat
  recipeId : Nat
deriving DecidableEq, Repr

/-- A database state: the four tables the verified operations touch. -/
structure Store where
  ingredients : List Ingredient
  recipes : List Recipe
  ingredient_recipes : List IngredientRecipe
  carts : List ShoppingCart
deriving Repr

/-- ShoppingCart.objects.filter(user=user): the cart rows of one user, in
table order. -/
def cartOf (s : Store) (u : Nat) : List ShoppingCart :=
  s.carts.filter (fun c => c.userId == u)

/-- Duplicate removal keeping the first occurrence of each element;
used to model SQL GROUP BY key enumeration (first appearance order) and
SUM(DISTINCT ...) operand sets. -/
def firstDedup {α : Type} [DecidableEq α] (seen : List α) : List α → List α
  | [] => []
  | a :: l => if seen.contains a then firstDedup seen l
              else a :: firstDedup (a :: seen) l

/-- Sum of the distinct values of a list: SUM(DISTINCT amount). -/
def sumDistinct (l : List Nat) : Nat := (firstDedup [] l).sum

/-- The rows produced by the joins of the query in
api/views.py, RecipeViewSet.download_shopping_list (lines 188 to 197):

  ShoppingCart.objects.filter(user=user)
    .values('recipe__ingredients__name',
            'recipe__ingredients__measurement_unit')
    .annotate(total_amount=Sum(
        'recipe__ingredients__ingredientrecipe__amount', distinct=True))

The path recipe__ingredients joins Recipe, then the through table
(alias ir1 below), then Ingredient; the trailing __ingredientrecipe hop is
the reverse foreign key from Ingredient back to the through table (alias
ir2), which is NOT constrained to the recipe of the cart row: it ranges
over every through-table row that references the ingredient, in any
recipe. Each result row is (ingredient name, measurement unit, amount of
one ir2 row). -/
def RecipeViewSet.join_rows (s : Store) (u : Nat) : List (String × String × Nat) :=
  (cartOf s u).flatMap fun c =>
    (s.recipes.filter (fun r => r.id == c.recipeId)).flatMap fun r =>
      (s.ingredient_recipes.filter (fun ir1 => ir1.recipeId == r.id)).flatMap fun ir1 =>
        (s.ingredients.filter (fun i => i.id == ir1.ingredientId)).flatMap fun i =>
          (s.ingredient_recipes.filter (fun ir2 => ir2.ingredientId == i.id)).map fun ir2 =>
            (i.name, i.measurement_unit, ir2.amount)

/-- The grouped query result: one row per distinct
(name, measurement_unit) pair of the join rows, with
total_amount = SUM(DISTINCT amount) over the group.  The model default
ordering of ShoppingCart is user__username, constant over the rows of one
user, so it does not split the groups; SQL leaves the output order of the
groups unspecified, modelled here as first appearance order of the key. -/
def RecipeViewSet.ingredients_summary (s : Store) (u : Nat) : List (String × String × Nat) :=
  let rows := RecipeViewSet.join_rows s u
  (firstDedup [] (rows.map (fun r => (r.1, r.2.1)))).map fun k =>
    (k.1, k.2, sumDistinct (rows.filterMap fun r =>
      if (r.1, r.2.1) = k then some r.2.2 else none))

/-- One line of the api download text (api/views.py lines 206 to 208):
the two adjacent f-strings concatenate to
"{name} ({unit})— {total} \n" (no space before the dash, a space before
the newline). -/
def RecipeViewSet.line (row : String × String × Nat) : String :=
  row.1 ++ " (" ++ row.2.1 ++ ")" ++ "— " ++ toString row.2.2 ++ " \n"

/-- The full response text of
api/views.py, RecipeViewSet.download_shopping_list: the loop
response_text += line over the grouped rows, starting from the empty
string. -/
def RecipeViewSet.download_shopping_list (s : Store) (u : Nat) : String :=
  (RecipeViewSet.ingredients_summary s u).foldl
    (fun acc row => acc ++ RecipeViewSet.line row) ""

/-- Byte-order comparison of char lists, for the default ordering of the
Ingredient model (Meta.ordering = name). -/
def lexLe : List Char → List Char → Bool
  | [], _ => true
  | _ :: _, [] => false
  | a :: as, b :: bs =>
      if a.toNat < b.toNat then true
      else if b.toNat < a.toNat then false
      else lexLe as bs

/-- String comparison used for ORDER BY name. -/
def strLe (a b : String) : Bool := lexLe a.data b.data

/-- Stable insertion for the sort below. -/
def insertLe {α : Type} (le : α → α → Bool) (x : α) : List α → List α
  | [] => [x]
  | y :: ys => if le x y then x :: y :: ys else y :: insertLe le x ys

/-- Stable insertion sort (ties keep the original order). -/
def sortLe {α : Type} (le : α → α → Bool) : List α → List α
  | [] => []
  | x :: xs => insertLe le x (sortLe le xs)

/-- Stable sort of ingredients by name, modelling the default ordering of
the Ingredient queryset (ties keep join order). -/
def sortByName : List Ingredient → List Ingredient :=
  sortLe (fun a b => strLe a.name b.name)

/-- recipe.ingredients.all() (recipes/views.py line 449): the ingredients
joined through every through-table row of the recipe (no DISTINCT, so a
duplicated through row yields a duplicated ingredient), ordered by name
per the Ingredient model default ordering. -/
def Recipe.ingredients_all (s : Store) (rId : Nat) : List Ingredient :=
  sortByName ((s.ingredient_recipes.filter (fun ir => ir.recipeId == rId)).filterMap
    (fun ir => s.ingredients.find? (fun i => i.id == ir.ingredientId)))

/-- item.recipe on a cart row (recipes/views.py line 447): follows the
foreign key; a dangling reference raises Recipe.DoesNotExist. -/
def ShoppingCart.recipe (s : Store) (c : ShoppingCart) : Except String Recipe :=
  match s.recipes.find? (fun r => r.id == c.recipeId) with
  | some r => .ok r
  | none => .error "Recipe.DoesNotExist"

/-- IngredientRecipe.objects.get(ingredient=ingredient, recipe=recipe)
(recipes/views.py lines 452 to 453): raises DoesNotExist on zero matches
and MultipleObjectsReturned on several. -/
def IngredientRecipe.objects_get (s : Store) (iId rId : Nat) : Except String IngredientRecipe :=
  match s.ingredient_recipes.filter (fun ir => ir.ingredientId == iId && ir.recipeId == rId) with
  | [ir] => .ok ir
  | [] => .error "IngredientRecipe.DoesNotExist"
  | _ => .error "IngredientRecipe.MultipleObjectsReturned"

/-- Ingredient.objects.get(name=name) (recipes/views.py lines 462 to 463):
raises DoesNotExist on zero matches and MultipleObjectsReturned on
several (the unique constraint is on (name, measurement_unit), so two
ingredients may share a name). -/
def Ingredient.objects_get_name (s : Store) (n : String) : Except String Ingredient :=
  match s.ingredients.filter (fun i => i.name == n) with
  | [i] => .ok i
  | [] => .error "Ingredient.DoesNotExist"
  | _ => .error "Ingredient.MultipleObjectsReturned"

/-- The ingredients_summary dictionary update of recipes/views.py lines
455 to 458: the dictionary is keyed by ingredient NAME alone; an existing
key accumulates, a new key is appended (Python dict insertion order). -/
def addToSummary (sm : List (String × Nat)) (n : String) (amt : Nat) : List (String × Nat) :=
  if sm.any (fun p => p.1 == n) then
    sm.map (fun p => if p.1 = n then (p.1, p.2 + amt) else p)
  else sm ++ [(n, amt)]

/-- The inner loop of
recipes/views.py, ShoppingCartViewSet.download_shopping_list (lines 450
to 458): for each ingredient of one recipe, fetch its through row with
IngredientRecipe.objects.get and accumulate into the dictionary. -/
def ShoppingCartViewSet.recipe_loop (s : Store) (rId : Nat) :
    List Ingredient → List (String × Nat) → Except String (List (String × Nat))
  | [], sm => .ok sm
  | i :: rest, sm =>
      match IngredientRecipe.objects_get s i.id rId with
      | .error e => .error e
      | .ok ir => ShoppingCartViewSet.recipe_loop s rId rest (addToSummary sm i.name ir.amount)

/-- The outer loop of recipes/views.py lines 446 to 458: one pass per
cart ROW (not per distinct recipe). -/
def ShoppingCartViewSet.cart_loop (s : Store) :
    List ShoppingCart → List (String × Nat) → Except String (List (String × Nat))
  | [], sm => .ok sm
  | c :: rest, sm =>
      match ShoppingCart.recipe s c with
      | .error e => .error e
      | .ok r =>
          match ShoppingCartViewSet.recipe_loop s r.id (Recipe.ingredients_all s r.id) sm with
          | .error e => .error e
          | .ok sm2 => ShoppingCartViewSet.cart_loop s rest sm2

/-- The rendering loop of recipes/views.py lines 460 to 466: for each
dictionary entry, fetch the measurement unit with
Ingredient.objects.get(name=...) and append
"{name} ({unit}) —{total} \n" (space before the dash, none after). -/
def ShoppingCartViewSet.render (s : Store) :
    List (String × Nat) → String → Except String String
  | [], acc => .ok acc
  | (n, amt) :: rest, acc =>
      match Ingredient.objects_get_name s n with
      | .error e => .error e
      | .ok i => ShoppingCartViewSet.render s rest
          (acc ++ n ++ " (" ++ i.measurement_unit ++ ") —" ++ toString amt ++ " \n")

/-- recipes/views.py, ShoppingCartViewSet.download_shopping_list (lines
437 to 471): the manual loop-and-dictionary implementation. -/
def ShoppingCartViewSet.download_shopping_list (s : Store) (u : Nat) : Except String String :=
  match ShoppingCartViewSet.cart_loop s (cartOf s u) [] with
  | .error e => .error e
  | .ok sm => ShoppingCartViewSet.render s sm ""

/-! ## Specification-side aggregation

A second set of definitions that follows the words of spec.md §4.1, used
only to compare the two code implementations against the specified
contract (refinement claims). -/

/-- Specification-side definition (spec.md §4.1, steps 1 to 3):
aggregate_shopping_list collects the (ingredient, amount) pairs over the
SET of distinct recipes referenced by the cart of the user (skipping
entries whose recipe is missing), groups them by the identity pair
(name, measurement_unit) with total_amount the plain sum of the group,
and emits the rows ordered by ingredient name ascending. -/
def aggregate_shopping_list (s : Store) (u : Nat) : List (String × String × Nat) :=
  let rs := firstDedup [] ((cartOf s u).filterMap
    (fun c => s.recipes.find? (fun r => r.id == c.recipeId)))
  let pairs := rs.flatMap fun r =>
    (s.ingredient_recipes.filter (fun ir => ir.recipeId == r.id)).filterMap fun ir =>
      (s.ingredients.find? (fun i => i.id == ir.ingredientId)).map fun i =>
        (i.name, i.measurement_unit, ir.amount)
  (sortLe (fun a b => strLe a.1 b.1) (firstDedup [] (pairs.map (fun p => (p.1, p.2.1))))).map
    fun k => (k.1, k.2,
      (pairs.filterMap fun p => if (p.1, p.2.1) = k then some p.2.2 else none).sum)

/-- Specification-side rendering (spec.md §4.1, step 4): one line per row,
format "{name} ({unit}) — {total_amount}", newline-terminated, no trailing
summary line. -/
def spec_line (row : String × String × Nat) : String :=
  row.1 ++ " (" ++ row.2.1 ++ ") — " ++ toString row.2.2 ++ "\n"

/-- Specification-side report text: the concatenation of the rendered
rows of aggregate_shopping_list. -/
def spec_report (s : Store) (u : Nat) : String :=
  String.join ((aggregate_shopping_list s u).map spec_line)

/-! ## Short-link resolvers -/

/-- Outcome of an HTTP view, as far as the resolver claims need it. -/
inductive HttpResult where
  | redirect (url : String)
  | notFound
  | serverError (msg : String)
deriving DecidableEq, Repr

/-- api/views.py, RecipeDetailView.get (lines 246 to 251):
get_object_or_404(Recipe, short_code=short_code), then a redirect to
reverse(recipe-detail, pk=recipe.id), which the router spells
/api/recipes/{id}/. get_object_or_404 turns DoesNotExist into a 404
response; MultipleObjectsReturned (impossible under the unique constraint
on short_code) would escape as a server error. -/
def Api.RecipeDetailView.get (s : Store) (sc : String) : HttpResult :=
  match s.recipes.filter (fun r => r.short_code == sc) with
  | [r] => .redirect ("/api/recipes/" ++ toString r.id ++ "/")
  | [] => .notFound
  | _ => .serverError "Recipe.MultipleObjectsReturned"

/-- recipes/views.py, RecipeDetailView.get (lines 211 to 220): executes
Recipe.objects.get(code=code) inside try/except Recipe.DoesNotExist. The
Recipe model (recipes/models.py lines 106 to 162) defines no field named
code — the code field is short_code — so the ORM raises
FieldError("Cannot resolve keyword code into field") while resolving the
lookup keyword, before reading any row. FieldError is not
Recipe.DoesNotExist, so it escapes the except clause as a fatal server
error, for every store and every requested code. -/
def RecipesApp.RecipeDetailView.get (s : Store) (code : Nat) : HttpResult :=
  .serverError "FieldError: Cannot resolve keyword code into a field"

/-! ## Short-code generation (recipes/models.py) -/

/-- Modelled from the spec: the module recipes/constans.py defining
LENGTH_SHORT_CODE is not under src (only its import in models.py is);
spec.md §8 exercises a 6-digit code space, so the length is taken as 6. -/
def LENGTH_SHORT_CODE : Nat := 6

/-- str(uuid.uuid4().int)[:LENGTH_SHORT_CODE] for a drawn integer n: the
decimal digits of n (Nat.repr n is (Nat.toDigits 10 n).asString),
truncated to the code length. -/
def strSlice (n : Nat) : String := ⟨(Nat.toDigits 10 n).take LENGTH_SHORT_CODE⟩

/-- recipes/models.py, Recipe.generate_code (lines 152 to 157): draw a
random integer, truncate its decimal representation, and return it unless
some recipe already holds it, else redraw. The Python while-loop is
unbounded; the embedding indexes the successive draws and adds fuel,
returning none when the fuel runs out. -/
def Recipe.generate_code (draws : Nat → Nat) (existing : List String) :
    Nat → Nat → Option String
  | _, 0 => none
  | k, fuel + 1 =>
      let sc := strSlice (draws k)
      if existing.contains sc then Recipe.generate_code draws existing (k + 1) fuel
      else some sc

/-- recipes/models.py, Recipe.save (lines 159 to 162): assign a generated
code when short_code is empty, otherwise leave the row alone, then
persist. existing stands for the short codes already in the recipe
table at the time of the save. -/
def Recipe.save (draws : Nat → Nat) (existing : List String) (fuel : Nat)
    (r : Recipe) : Option Recipe :=
  if r.short_code = "" then
    (Recipe.generate_code draws existing 0 fuel).map
      (fun c => { r with short_code := c })
  else some r

/-- Recipe creation at the store level: Recipe.save checked against the
codes currently in the table, inserting the saved row. -/
def Store.create_recipe (s : Store) (draws : Nat → Nat) (fuel : Nat)
    (r : Recipe) : Option Store :=
  (Recipe.save draws (s.recipes.map Recipe.short_code) fuel r).map
    (fun r2 => { s with recipes := r2 :: s.recipes })

/-! ## Recipe write serializer (api/serializers.py) -/

/-- One element of the submitted ingredients list: a dict with integer
fields id and amount, as parsed by IngredientRecipeSerializerForUpdate. -/
structure IngredientItem where
  id : Int
  amount : Int
deriving DecidableEq, Repr

/-- api/serializers.py, IngredientRecipeSerializerForUpdate.validate
(lines 40 to 53): the id must name an existing ingredient and the amount
must be positive. -/
def IngredientRecipeSerializerForUpdate.validate (s : Store)
    (it : IngredientItem) : Except String IngredientItem :=
  if s.ingredients.any (fun i => (i.id : Int) == it.id) then
    if it.amount ≤ 0 then .error "amount must be positive" else .ok it
  else .error "ingredient not found"

/-- Per-item validation of the submitted list, as run by the nested
serializer before RecipeSerializer.validate. -/
def validate_items (s : Store) : List IngredientItem → Except String Unit
  | [] => .ok ()
  | it :: rest =>
      match IngredientRecipeSerializerForUpdate.validate s it with
      | .error e => .error e
      | .ok _ => validate_items s rest

/-- api/serializers.py, RecipeSerializer.validate (lines 165 to 184):
reject an empty (or absent) ingredient list, a falsy id or amount, a
repeated ingredient id (len(ids) != len(set(ids)), i.e. not Nodup), an
empty tag list, and repeated tags. -/
def RecipeSerializer.validate (items : List IngredientItem) (tags : List Nat) :
    Except String Unit :=
  if items.length = 0 then .error "empty ingredient list"
  else if items.any (fun it => it.id == 0 || it.amount == 0) then
    .error "ingredient id and amount required"
  else if ¬ (items.map IngredientItem.id).Nodup then .error "duplicate ingredients"
  else if tags.length = 0 then .error "empty tag list"
  else if ¬ tags.Nodup then .error "duplicate tags"
  else .ok ()

/-- The whole validation pipeline of a recipe write: nested per-item
validation, then RecipeSerializer.validate. -/
def RecipeSerializer.run_validation (s : Store) (items : List IngredientItem)
    (tags : List Nat) : Except String Unit :=
  match validate_items s items with
  | .error e => .error e
  | .ok _ => RecipeSerializer.validate items tags

/-- api/serializers.py, RecipeSerializer.add_ingredients_tags (lines 193
to 201): bulk insert of one through-table row per submitted item. -/
def RecipeSerializer.new_rows (rId : Nat) (items : List IngredientItem) :
    List IngredientRecipe :=
  items.map (fun it =>
    { ingredientId := it.id.toNat, recipeId := rId, amount := it.amount.toNat })

/-- api/serializers.py, RecipeSerializer.update (lines 212 to 218): delete
the through rows of the instance, then bulk create the submitted ones.
RecipeSerializer.create (lines 204 to 210) is the special case where the
table holds no row for the fresh id yet. -/
def RecipeSerializer.write_rows (rId : Nat) (items : List IngredientItem)
    (rows : List IngredientRecipe) : List IngredientRecipe :=
  (rows.filter (fun ir => ir.recipeId != rId)) ++ RecipeSerializer.new_rows rId items

/-! ## Concrete stores used by the counterexamples and witnesses -/

/-- Two distinct recipes, both listing the single ingredient Flour (g)
with the same amount a; a user whose cart holds both. -/
def twoRecipeStore (a : Nat) : Store :=
  { ingredients := [⟨1, "Flour", "g"⟩]
    recipes := [⟨1, "c1"⟩, ⟨2, "c2"⟩]
    ingredient_recipes := [⟨1, 1, a⟩, ⟨1, 2, a⟩]
    carts := [⟨7, 1⟩, ⟨7, 2⟩] }

/-- Two ingredients sharing the name salt with different measurement
units, one in each of two carted recipes. -/
def saltStore (a1 a2 : Nat) : Store :=
  { ingredients := [⟨1, "salt", "g"⟩, ⟨2, "salt", "kg"⟩]
    recipes := [⟨1, "s1"⟩, ⟨2, "s2"⟩]
    ingredient_recipes := [⟨1, 1, a1⟩, ⟨2, 2, a2⟩]
    carts := [⟨7, 1⟩, ⟨7, 2⟩] }

/-- A cart in which the same recipe appears in two cart rows (violating
the uniqueness invariant the aggregation must tolerate). -/
def dupCartStore (a : Nat) : Store :=
  { ingredients := [⟨1, "Rice", "g"⟩]
    recipes := [⟨1, "r1"⟩]
    ingredient_recipes := [⟨1, 1, a⟩]
    carts := [⟨7, 1⟩, ⟨7, 1⟩] }

/-- The smallest interesting cart: one recipe with one ingredient. -/
def flourStore (a : Nat) : Store :=
  { ingredients := [⟨1, "Flour", "g"⟩]
    recipes := [⟨1, "f1"⟩]
    ingredient_recipes := [⟨1, 1, a⟩]
    carts := [⟨7, 1⟩] }

/-- A cart entry whose recipe does not exist in the store. -/
def danglingStore : Store :=
  { ingredients := []
    recipes := []
    ingredient_recipes := []
    carts := [⟨7, 42⟩] }

/-- A store holding one recipe with short code 123456. -/
def codeStore : Store :=
  { ingredients := []
    recipes := [⟨1, "123456"⟩]
    ingredient_recipes := []
    carts := [] }

/-- A store with no rows at all. -/
def emptyStore : Store := ⟨[], [], [], []⟩

/-! ## Helper lemmas -/

theorem join_cons (y : String) (ys : List String) :
    String.join (y :: ys) = y ++ String.join ys := by
  show List.foldl (fun r s => r ++ s) ("" ++ y) ys
    = y ++ List.foldl (fun r s => r ++ s) "" ys
  have aux : ∀ (l : List String) (a b : String),
      List.foldl (fun r s => r ++ s) (a ++ b) l
        = a ++ List.foldl (fun r s => r ++ s) b l := by
    intro l
    induction l with
    | nil => intro a b; rfl
    | cons x xs ih =>
        intro a b
        show List.foldl (fun r s => r ++ s) (a ++ b ++ x) xs = _
        rw [String.append_assoc, ih]
        rfl
  have h0 : ("" ++ y : String) = y ++ "" := by simp
  rw [h0, aux]

/-- The response_text accumulation loop equals the join of the rendered
lines. -/
theorem foldl_line_eq_join {α : Type} (g : α → String) (l : List α) :
    List.foldl (fun acc x => acc ++ g x) "" l = String.join (l.map g) := by
  have aux : ∀ (l2 : List α) (a b : String),
      List.foldl (fun acc x => acc ++ g x) (a ++ b) l2
        = a ++ List.foldl (fun acc x => acc ++ g x) b l2 := by
    intro l2
    induction l2 with
    | nil => intro a b; rfl
    | cons x xs ih =>
        intro a b
        show List.foldl (fun acc x2 => acc ++ g x2) (a ++ b ++ g x) xs = _
        rw [String.append_assoc, ih]
        rfl
  induction l with
  | nil => rfl
  | cons x xs ih =>
      show List.foldl (fun acc y => acc ++ g y) ("" ++ g x) xs = _
      have h0 : ("" ++ g x : String) = g x ++ "" := by simp
      rw [h0, aux, ih, List.map_cons, join_cons]

/-- The db download texts of the two implementations differ in the
characters around the dash, whatever the rendered amount is. -/
theorem dash_spacing_ne (t : String) :
    ("Flour (g)— " ++ t ++ " \n") ≠ ("Flour (g) —" ++ t ++ " \n") := by
  intro h
  have h2 := congrArg String.data h
  simp [String.data_append] at h2

theorem join_rows_nil (s : Store) (u : Nat) (h : cartOf s u = []) :
    RecipeViewSet.join_rows s u = [] := by
  unfold RecipeViewSet.join_rows
  rw [h]
  rfl

/-- An empty cart yields an empty report in both implementations. -/
theorem empty_cart_reports (s : Store) (u : Nat) (h : cartOf s u = []) :
    RecipeViewSet.download_shopping_list s u = "" ∧
    ShoppingCartViewSet.download_shopping_list s u = .ok "" := by
  constructor
  · unfold RecipeViewSet.download_shopping_list RecipeViewSet.ingredients_summary
    rw [join_rows_nil s u h]
    rfl
  · unfold ShoppingCartViewSet.download_shopping_list
    rw [h]
    rfl

/-- A cart entry whose recipe is missing contributes no join rows. -/
theorem join_rows_dangling (s : Store) (u : Nat) (e : ShoppingCart)
    (h : ∀ r ∈ s.recipes, r.id ≠ e.recipeId) :
    RecipeViewSet.join_rows { s with carts := e :: s.carts } u
      = RecipeViewSet.join_rows s u := by
  have hfil : s.recipes.filter (fun r => r.id == e.recipeId) = [] := by
    rw [List.filter_eq_nil_iff]
    intro r hr
    simp only [beq_iff_eq]
    exact fun hc => h r hr hc
  unfold RecipeViewSet.join_rows cartOf
  simp only [List.filter_cons]
  by_cases hu : e.userId = u
  · simp only [hu, beq_self_eq_true, if_pos, List.flatMap_cons, hfil, List.flatMap_nil,
      List.nil_append]
  · have hb : (e.userId == u) = false := by
      simp [hu]
    simp only [hb, if_neg, Bool.false_eq_true, not_false_iff]

/-- The db download ignores a cart entry whose recipe is missing. -/
theorem db_ignores_dangling (s : Store) (u : Nat) (e : ShoppingCart)
    (h : ∀ r ∈ s.recipes, r.id ≠ e.recipeId) :
    RecipeViewSet.download_shopping_list { s with carts := e :: s.carts } u
      = RecipeViewSet.download_shopping_list s u := by
  unfold RecipeViewSet.download_shopping_list RecipeViewSet.ingredients_summary
  rw [join_rows_dangling s u e h]

theorem cart_loop_head_missing (s : Store) (e : ShoppingCart) (l : List ShoppingCart)
    (sm : List (String × Nat))
    (hfind : s.recipes.find? (fun r => r.id == e.recipeId) = none) :
    ShoppingCartViewSet.cart_loop s (e :: l) sm = .error "Recipe.DoesNotExist" := by
  simp only [ShoppingCartViewSet.cart_loop, ShoppingCart.recipe, hfind]

theorem cartOf_cons_self (s : Store) (u : Nat) (e : ShoppingCart) (hu : e.userId = u) :
    cartOf { s with carts := e :: s.carts } u = e :: cartOf s u := by
  unfold cartOf
  simp [List.filter_cons, hu]

/-- The manual download raises instead of skipping a cart entry whose
recipe is missing. -/
theorem manual_errors_on_dangling (s : Store) (u : Nat) (e : ShoppingCart)
    (hu : e.userId = u) (h : ∀ r ∈ s.recipes, r.id ≠ e.recipeId) :
    ShoppingCartViewSet.download_shopping_list { s with carts := e :: s.carts } u
      = .error "Recipe.DoesNotExist" := by
  have hfind : s.recipes.find? (fun r => r.id == e.recipeId) = none := by
    rw [List.find?_eq_none]
    intro r hr
    simp only [beq_iff_eq]
    exact fun hc => h r hr hc
  unfold ShoppingCartViewSet.download_shopping_list
  rw [cartOf_cons_self s u e hu,
    cart_loop_head_missing { s with carts := e :: s.carts } e (cartOf s u) [] hfind]

/-- Filtering a recipe table with pairwise distinct codes by the code of
one of its members yields exactly that member. -/
theorem filter_code_single (c : String) :
    ∀ (l : List Recipe) (r : Recipe), (l.map Recipe.short_code).Nodup → r ∈ l →
      r.short_code = c → l.filter (fun x => x.short_code == c) = [r] := by
  intro l
  induction l with
  | nil => intro r _ hr; cases hr
  | cons x t ih =>
      intro r hnd hr hc
      rw [List.map_cons] at hnd
      have hx : x.short_code ∉ t.map Recipe.short_code := (List.nodup_cons.mp hnd).1
      have hndt : (t.map Recipe.short_code).Nodup := (List.nodup_cons.mp hnd).2
      rcases List.mem_cons.mp hr with h1 | h2
      · subst h1
        rw [List.filter_cons, if_pos (by simp [hc])]
        have hnil : t.filter (fun y => y.short_code == c) = [] := by
          rw [List.filter_eq_nil_iff]
          intro y hy
          simp only [beq_iff_eq]
          intro hyc
          exact hx (by
            rw [hc, ← hyc]
            exact List.mem_map_of_mem Recipe.short_code hy)
        rw [hnil]
      · have hxc : (x.short_code == c) = false := by
          simp only [beq_eq_false_iff_ne, ne_eq]
          intro hxc
          exact hx (by
            rw [hxc, ← hc]
            exact List.mem_map_of_mem Recipe.short_code h2)
        rw [List.filter_cons, if_neg (by simp [hxc])]
        exact ih r hndt h2 hc

/-- A code returned by generate_code is absent from the existing codes. -/
theorem generate_code_fresh (draws : Nat → Nat) (existing : List String) :
    ∀ (fuel k : Nat) (c : String),
      Recipe.generate_code draws existing k fuel = some c → c ∉ existing := by
  intro fuel
  induction fuel with
  | zero => intro k c h; cases h
  | succ n ih =>
      intro k c h
      unfold Recipe.generate_code at h
      by_cases hc : existing.contains (strSlice (draws k))
      · rw [if_pos hc] at h
        exact ih (k + 1) c h
      · rw [if_neg hc] at h
        cases h
        intro hmem
        exact hc (List.elem_iff.mpr hmem)

theorem toDigitsCore_length_le (b : Nat) :
    ∀ (fuel n : Nat) (ds : List Char),
      ds.length ≤ (Nat.toDigitsCore b fuel n ds).length := by
  intro fuel
  induction fuel with
  | zero => intro n ds; exact Nat.le_refl _
  | succ m ih =>
      intro n ds
      unfold Nat.toDigitsCore
      by_cases h : n / b = 0
      · rw [if_pos h]
        exact Nat.le_succ_of_le (Nat.le_refl _)
      · rw [if_neg h]
        exact Nat.le_trans (Nat.le_succ ds.length) (ih (n / b) ((n % b).digitChar :: ds))

/-- The decimal digit list of a natural number is never empty. -/
theorem toDigits_ne_nil (b n : Nat) : Nat.toDigits b n ≠ [] := by
  unfold Nat.toDigits
  intro h
  have hlen : (1 : Nat) ≤ (Nat.toDigitsCore b (n + 1) n []).length := by
    unfold Nat.toDigitsCore
    by_cases hz : n / b = 0
    · rw [if_pos hz]
      exact Nat.le_refl 1
    · rw [if_neg hz]
      exact Nat.le_trans (Nat.le_refl 1)
        (toDigitsCore_length_le b n (n / b) [(n % b).digitChar])
  rw [h] at hlen
  cases hlen

/-- A truncated decimal representation is never the empty string. -/
theorem strSlice_ne_empty (n : Nat) : strSlice n ≠ "" := by
  unfold strSlice
  intro h
  have hdata : (Nat.toDigits 10 n).take LENGTH_SHORT_CODE = [] := congrArg String.data h
  rcases List.take_eq_nil_iff.mp hdata with h6 | hnil
  · cases h6
  · exact toDigits_ne_nil 10 n hnil

/-- A code returned by generate_code is a nonempty string. -/
theorem generate_code_ne_empty (draws : Nat → Nat) (existing : List String) :
    ∀ (fuel k : Nat) (c : String),
      Recipe.generate_code draws existing k fuel = some c → c ≠ "" := by
  intro fuel
  induction fuel with
  | zero => intro k c h; cases h
  | succ m ih =>
      intro k c h
      unfold Recipe.generate_code at h
      by_cases hc : existing.contains (strSlice (draws k))
      · rw [if_pos hc] at h
        exact ih (k + 1) c h
      · rw [if_neg hc] at h
        cases h
        exact strSlice_ne_empty (draws k)

/-- Every item that passes the nested per-item validation carries a
nonnegative ingredient id (it equals the id of a stored ingredient). -/
theorem validate_items_nonneg (s : Store) :
    ∀ (items : List IngredientItem), validate_items s items = .ok () →
      ∀ it ∈ items, 0 ≤ it.id := by
  intro items
  induction items with
  | nil => intro _ it hit; cases hit
  | cons x rest ih =>
      intro h it hit
      unfold validate_items IngredientRecipeSerializerForUpdate.validate at h
      by_cases hex : s.ingredients.any (fun i => (i.id : Int) == x.id)
      · rw [if_pos hex] at h
        by_cases hamt : x.amount ≤ 0
        · rw [if_pos hamt] at h
          cases h
        · rw [if_neg hamt] at h
          rcases List.mem_cons.mp hit with h1 | h2
          · subst h1
            rcases List.any_eq_true.mp hex with ⟨i, _, hi⟩
            have hieq : (i.id : Int) = it.id := beq_iff_eq.mp hi
            rw [← hieq]
            exact Int.ofNat_nonneg i.id
          · exact ih h it h2
      · rw [if_neg hex] at h
        cases h

/-! ## Claims -/

/-- C1: the claim demands that a cart holding two distinct recipes R1, R2
which both list ingredient I with amounts a1 and a2 reports one row for I
with total a1 + a2. Evaluated at a1 = a2 = 5, the database grouped-sum
download of api/views.py reports total 5, because
Sum(..., distinct=True) collapses the equal per-recipe amounts before
summing; the manual loop of recipes/views.py reports the intended 10.
5 is not 5 + 5, so the database path contradicts the claim. -/
theorem C1_sum_distinct_collapses_equal_amounts :
    RecipeViewSet.ingredients_summary (twoRecipeStore 5) 7 = [("Flour", "g", 5)] ∧
    ShoppingCartViewSet.download_shopping_list (twoRecipeStore 5) 7
      = .ok "Flour (g) —10 \n" ∧
    (5 : Nat) + 5 ≠ 5 := ⟨by decide, rfl, by decide⟩

/-- C2 counterexample: the two download implementations are not
equivalent. On a store with two ingredients named salt (units g and kg),
one in each of two carted recipes, the database grouped-sum download
returns a two-line text while the manual loop raises
MultipleObjectsReturned, so neither the row sets nor the rendered texts
agree. -/
theorem C2_counterexample :
    RecipeViewSet.download_shopping_list (saltStore 3 5) 7
      = "salt (g)— 3 \nsalt (kg)— 5 \n" ∧
    ShoppingCartViewSet.download_shopping_list (saltStore 3 5) 7
      = .error "Ingredient.MultipleObjectsReturned" := ⟨by decide, rfl⟩

/-- C2 amended: the two implementations agree on the aggregated rows only
in restricted states, such as a cart holding a single recipe with a single
ingredient; even there their rendered texts differ around the dash, so
they are alternative but not equivalent implementations of one
contract. -/
theorem C2_amended_agreement_only_on_rows_of_simple_carts (a : Nat) :
    RecipeViewSet.ingredients_summary (flourStore a) 7 = [("Flour", "g", a)] ∧
    ShoppingCartViewSet.cart_loop (flourStore a) (cartOf (flourStore a) 7) []
      = .ok [("Flour", a)] ∧
    RecipeViewSet.download_shopping_list (flourStore a) 7
      = "Flour (g)— " ++ toString a ++ " \n" ∧
    ShoppingCartViewSet.download_shopping_list (flourStore a) 7
      = .ok ("Flour (g) —" ++ toString a ++ " \n") ∧
    RecipeViewSet.download_shopping_list (flourStore a) 7
      ≠ "Flour (g) —" ++ toString a ++ " \n" := by
  have hdb : RecipeViewSet.download_shopping_list (flourStore a) 7
      = "Flour (g)— " ++ toString a ++ " \n" := by
    simp +decide [RecipeViewSet.download_shopping_list, RecipeViewSet.ingredients_summary,
      RecipeViewSet.join_rows, cartOf, flourStore, firstDedup, sumDistinct,
      RecipeViewSet.line, List.filter, List.flatMap, List.filterMap, String.append_assoc]
    apply String.ext
    simp [String.data_append, List.append_assoc]
  refine ⟨?_, ?_, hdb, ?_, ?_⟩
  · simp +decide [RecipeViewSet.ingredients_summary, RecipeViewSet.join_rows, cartOf,
      flourStore, firstDedup, sumDistinct, List.filter, List.flatMap, List.filterMap]
  · simp +decide [ShoppingCartViewSet.cart_loop, cartOf, flourStore, ShoppingCart.recipe,
      Recipe.ingredients_all, sortByName, sortLe, insertLe, ShoppingCartViewSet.recipe_loop,
      IngredientRecipe.objects_get, addToSummary, List.filter, List.filterMap, List.find?]
  · simp +decide [ShoppingCartViewSet.download_shopping_list, ShoppingCartViewSet.cart_loop,
      cartOf, flourStore, ShoppingCart.recipe, Recipe.ingredients_all, sortByName, sortLe,
      insertLe, ShoppingCartViewSet.recipe_loop, IngredientRecipe.objects_get, addToSummary,
      ShoppingCartViewSet.render, Ingredient.objects_get_name, List.filter, List.filterMap,
      List.find?, String.append_assoc]
  · rw [hdb]
    exact dash_spacing_ne (toString a)

/-- C3 counterexample: on a store with the ingredients salt (g) and
salt (kg) in two carted recipes, the manual loop of recipes/views.py
accumulates one merged entry keyed by the bare name with total 3 + 5 = 8,
and its rendering then raises MultipleObjectsReturned instead of
emitting two rows. -/
theorem C3_counterexample :
    ShoppingCartViewSet.cart_loop (saltStore 3 5) (cartOf (saltStore 3 5) 7) []
      = .ok [("salt", 8)] ∧
    ShoppingCartViewSet.download_shopping_list (saltStore 3 5) 7
      = .error "Ingredient.MultipleObjectsReturned" := ⟨rfl, rfl⟩

/-- C3 amended: only the database grouped-sum download groups by the
identity pair (name, measurement_unit), reporting two separate rows with
separate totals for same-name different-unit ingredients; the manual loop
keys its dictionary by name alone, merging the two amounts into one
entry, and its rendering raises MultipleObjectsReturned when the merged
name matches several ingredients. -/
theorem C3_amended_grouping_key (a1 a2 : Nat) :
    RecipeViewSet.ingredients_summary (saltStore a1 a2) 7
      = [("salt", "g", a1), ("salt", "kg", a2)] ∧
    ShoppingCartViewSet.cart_loop (saltStore a1 a2) (cartOf (saltStore a1 a2) 7) []
      = .ok [("salt", a1 + a2)] ∧
    ShoppingCartViewSet.download_shopping_list (saltStore a1 a2) 7
      = .error "Ingredient.MultipleObjectsReturned" := by
  refine ⟨?_, ?_, ?_⟩
  · simp +decide [RecipeViewSet.ingredients_summary, RecipeViewSet.join_rows, cartOf,
      saltStore, firstDedup, sumDistinct, List.filter, List.flatMap, List.filterMap]
  · simp +decide [ShoppingCartViewSet.cart_loop, cartOf, saltStore, ShoppingCart.recipe,
      Recipe.ingredients_all, sortByName, sortLe, insertLe, ShoppingCartViewSet.recipe_loop,
      IngredientRecipe.objects_get, addToSummary, List.filter, List.filterMap, List.find?]
  · simp +decide [ShoppingCartViewSet.download_shopping_list, ShoppingCartViewSet.cart_loop,
      cartOf, saltStore, ShoppingCart.recipe, Recipe.ingredients_all, sortByName, sortLe,
      insertLe, ShoppingCartViewSet.recipe_loop, IngredientRecipe.objects_get, addToSummary,
      ShoppingCartViewSet.render, Ingredient.objects_get_name, List.filter, List.filterMap,
      List.find?]

/-- C4 counterexample: on a cart in which the same recipe (one ingredient
Rice (g), amount 5) appears in two cart rows of the same user, the manual
loop of recipes/views.py reports total 10, counting the recipe once per
cart row, while the aggregation specified over the set of distinct cart
recipes reports 5. -/
theorem C4_counterexample :
    ShoppingCartViewSet.download_shopping_list (dupCartStore 5) 7
      = .ok "Rice (g) —10 \n" ∧
    aggregate_shopping_list (dupCartStore 5) 7 = [("Rice", "g", 5)] := ⟨rfl, by decide⟩

/-- C4 amended: only the database grouped-sum download tolerates a
duplicated cart entry (its SUM over distinct amounts is unchanged by the
duplicated join rows); the manual loop iterates over cart rows and counts
a duplicated recipe twice. -/
theorem C4_amended_duplicate_cart_rows (a : Nat) :
    RecipeViewSet.ingredients_summary (dupCartStore a) 7 = [("Rice", "g", a)] ∧
    ShoppingCartViewSet.cart_loop (dupCartStore a) (cartOf (dupCartStore a) 7) []
      = .ok [("Rice", a + a)] := by
  constructor
  · simp +decide [RecipeViewSet.ingredients_summary, RecipeViewSet.join_rows, cartOf,
      dupCartStore, firstDedup, sumDistinct, List.filter, List.flatMap, List.filterMap]
  · simp +decide [ShoppingCartViewSet.cart_loop, cartOf, dupCartStore, ShoppingCart.recipe,
      Recipe.ingredients_all, sortByName, sortLe, insertLe, ShoppingCartViewSet.recipe_loop,
      IngredientRecipe.objects_get, addToSummary, List.filter, List.filterMap, List.find?]

/-- C5 counterexample: for a cart whose aggregation yields the single row
(Flour, g, 2), the claimed line format would render "Flour (g) — 2\n";
the database download renders "Flour (g)— 2 \n" (no space before the
dash, trailing space) and the manual download renders
"Flour (g) —2 \n" (no space after the dash, trailing space), so neither
matches the claimed format. -/
theorem C5_counterexample :
    RecipeViewSet.download_shopping_list (flourStore 2) 7 = "Flour (g)— 2 \n" ∧
    ShoppingCartViewSet.download_shopping_list (flourStore 2) 7
      = .ok "Flour (g) —2 \n" ∧
    spec_report (flourStore 2) 7 = "Flour (g) — 2\n" ∧
    "Flour (g)— 2 \n" ≠ "Flour (g) — 2\n" ∧
    "Flour (g) —2 \n" ≠ "Flour (g) — 2\n" :=
  ⟨by decide, rfl, by decide, by decide, by decide⟩

/-- C5 amended: the database download is exactly one line per aggregated
row, in the deterministic group order of the query result, each line
formatted "{name} ({unit})— {total} \n" (no space before the dash,
trailing space before the newline, no summary line); the manual download
formats its lines "{name} ({unit}) —{total} \n", shown on the
single-ingredient cart family. Neither implementation sorts the rows by
ingredient name. -/
theorem C5_amended_line_format :
    (∀ (s : Store) (u : Nat),
      RecipeViewSet.download_shopping_list s u
        = String.join ((RecipeViewSet.ingredients_summary s u).map
          (fun row => row.1 ++ " (" ++ row.2.1 ++ ")— " ++ toString row.2.2 ++ " \n"))) ∧
    (∀ a : Nat,
      ShoppingCartViewSet.download_shopping_list (flourStore a) 7
        = .ok ("Flour (g) —" ++ toString a ++ " \n")) := by
  constructor
  · intro s u
    unfold RecipeViewSet.download_shopping_list
    rw [foldl_line_eq_join]
    have hline : RecipeViewSet.line =
        (fun row : String × String × Nat =>
          row.1 ++ " (" ++ row.2.1 ++ ")— " ++ toString row.2.2 ++ " \n") := by
      funext row
      apply String.ext
      simp [RecipeViewSet.line, String.data_append, List.append_assoc]
    rw [hline]
  · intro a
    simp +decide [ShoppingCartViewSet.download_shopping_list, ShoppingCartViewSet.cart_loop,
      cartOf, flourStore, ShoppingCart.recipe, Recipe.ingredients_all, sortByName, sortLe,
      insertLe, ShoppingCartViewSet.recipe_loop, IngredientRecipe.objects_get, addToSummary,
      ShoppingCartViewSet.render, Ingredient.objects_get_name, List.filter, List.filterMap,
      List.find?, String.append_assoc]

/-- C6 counterexample: on a store whose only cart entry references the
recipe id 42 which no recipe holds, the manual download of
recipes/views.py raises DoesNotExist instead of skipping the entry; the
database download skips it and reports the empty text. -/
theorem C6_counterexample :
    ShoppingCartViewSet.download_shopping_list danglingStore 7
      = .error "Recipe.DoesNotExist" ∧
    RecipeViewSet.download_shopping_list danglingStore 7 = "" := ⟨rfl, rfl⟩

/-- C6 amended: both downloads report an empty text for an empty cart,
and the database download never errors and ignores a cart entry whose
recipe is missing; the manual download, however, raises DoesNotExist on
such an entry instead of skipping it. -/
theorem C6_amended_error_behavior :
    (∀ (s : Store) (u : Nat), cartOf s u = [] →
      RecipeViewSet.download_shopping_list s u = "" ∧
      ShoppingCartViewSet.download_shopping_list s u = .ok "") ∧
    (∀ (s : Store) (u : Nat) (e : ShoppingCart),
      (∀ r ∈ s.recipes, r.id ≠ e.recipeId) →
      RecipeViewSet.download_shopping_list { s with carts := e :: s.carts } u
        = RecipeViewSet.download_shopping_list s u) ∧
    (∀ (s : Store) (u : Nat) (e : ShoppingCart), e.userId = u →
      (∀ r ∈ s.recipes, r.id ≠ e.recipeId) →
      ShoppingCartViewSet.download_shopping_list { s with carts := e :: s.carts } u
        = .error "Recipe.DoesNotExist") :=
  ⟨fun s u h => empty_cart_reports s u h,
   fun s u e h => db_ignores_dangling s u e h,
   fun s u e hu h => manual_errors_on_dangling s u e hu h⟩

/-- C6 witness: the amended statement applied to a store with an empty
cart and to the empty store extended with a dangling cart entry. -/
theorem C6_amended_error_behavior_witness :
    cartOf codeStore 7 = [] ∧
    RecipeViewSet.download_shopping_list codeStore 7 = "" ∧
    ShoppingCartViewSet.download_shopping_list { emptyStore with carts := [⟨7, 42⟩] } 7
      = .error "Recipe.DoesNotExist" ∧
    RecipeViewSet.download_shopping_list { emptyStore with carts := [⟨7, 42⟩] } 7
      = RecipeViewSet.download_shopping_list emptyStore 7 :=
  ⟨rfl, (C6_amended_error_behavior.1 codeStore 7 rfl).1,
    C6_amended_error_behavior.2.2 emptyStore 7 ⟨7, 42⟩ rfl (by intro r hr; cases hr),
    C6_amended_error_behavior.2.1 emptyStore 7 ⟨7, 42⟩ (by intro r hr; cases hr)⟩

/-- C7 counterexample: the short-link resolver of recipes/views.py
queries the nonexistent model field code, so even for the code 123456
held by the stored recipe it answers with a fatal FieldError instead of
redirecting to the recipe (and for unused codes it answers the same
FieldError instead of NotFound). -/
theorem C7_counterexample :
    RecipesApp.RecipeDetailView.get codeStore 123456
      = .serverError "FieldError: Cannot resolve keyword code into a field" ∧
    (codeStore.recipes.map Recipe.short_code).contains "123456" = true := ⟨rfl, by decide⟩

/-- C7 amended: the resolver of api/views.py satisfies the contract:
under the uniqueness of short codes, resolving the code of a stored
recipe redirects to that recipe, and resolving a code no recipe holds
answers NotFound; the resolver of recipes/views.py instead fails fatally
on every request because it queries a field named code that the Recipe
model does not define. -/
theorem C7_amended_api_resolver :
    (∀ (s : Store) (r : Recipe) (c : String),
      (s.recipes.map Recipe.short_code).Nodup → r ∈ s.recipes → r.short_code = c →
        Api.RecipeDetailView.get s c
          = .redirect ("/api/recipes/" ++ toString r.id ++ "/")) ∧
    (∀ (s : Store) (c : String), (∀ r ∈ s.recipes, r.short_code ≠ c) →
      Api.RecipeDetailView.get s c = .notFound) := by
  constructor
  · intro s r c hnd hr hc
    unfold Api.RecipeDetailView.get
    rw [filter_code_single c s.recipes r hnd hr hc]
  · intro s c h
    unfold Api.RecipeDetailView.get
    have hnil : s.recipes.filter (fun x => x.short_code == c) = [] := by
      rw [List.filter_eq_nil_iff]
      intro r hr
      simp only [beq_iff_eq]
      exact h r hr
    rw [hnil]

/-- C7 witness: the amended statement applied to the store holding the
single recipe with code 123456. -/
theorem C7_amended_api_resolver_witness :
    (codeStore.recipes.map Recipe.short_code).Nodup ∧
    Api.RecipeDetailView.get codeStore "123456"
      = .redirect ("/api/recipes/" ++ toString (1 : Nat) ++ "/") ∧
    Api.RecipeDetailView.get codeStore "000000" = .notFound :=
  ⟨by decide,
    C7_amended_api_resolver.1 codeStore ⟨1, "123456"⟩ "123456" (by decide) (by decide) rfl,
    C7_amended_api_resolver.2 codeStore "000000" (by decide)⟩

/-- C8: whenever generate_code returns a code, that code is absent from
the existing codes (a collision only causes a redraw), and consequently
creating a recipe with an initially empty short_code preserves the
pairwise distinctness of the short codes in the store. -/
theorem C8_generate_code_unique :
    (∀ (draws : Nat → Nat) (existing : List String) (fuel k : Nat) (c : String),
      Recipe.generate_code draws existing k fuel = some c → c ∉ existing) ∧
    (∀ (s : Store) (draws : Nat → Nat) (fuel : Nat) (r : Recipe) (s2 : Store),
      r.short_code = "" → Store.create_recipe s draws fuel r = some s2 →
        (s.recipes.map Recipe.short_code).Nodup →
        (s2.recipes.map Recipe.short_code).Nodup) := by
  constructor
  · exact fun draws existing fuel k c h => generate_code_fresh draws existing fuel k c h
  · intro s draws fuel r s2 hsc hcr hnd
    unfold Store.create_recipe Recipe.save at hcr
    rw [if_pos hsc] at hcr
    rcases Option.map_eq_some'.mp hcr with ⟨r2, hr2, hs2⟩
    rcases Option.map_eq_some'.mp hr2 with ⟨c, hgen, hrc⟩
    have hfresh : c ∉ s.recipes.map Recipe.short_code :=
      generate_code_fresh draws (s.recipes.map Recipe.short_code) fuel 0 c hgen
    subst hs2
    subst hrc
    simp only [List.map_cons]
    exact List.nodup_cons.mpr ⟨hfresh, hnd⟩

/-- C8 witness: the draw stream 0, 1, 2, ... against the existing code
list containing "0": the first draw collides, the second returns the
fresh code "1"; creating a second recipe in a one-recipe store keeps the
codes pairwise distinct. -/
theorem C8_generate_code_unique_witness :
    ("1" : String) ∉ ["0"] ∧
    ((Store.mk [] [⟨2, "1"⟩, ⟨1, "0"⟩] [] []).recipes.map Recipe.short_code).Nodup :=
  ⟨C8_generate_code_unique.1 (fun k => k) ["0"] 2 0 "1" rfl,
    C8_generate_code_unique.2 (Store.mk [] [⟨1, "0"⟩] [] []) (fun k => k) 2 ⟨2, ""⟩
      (Store.mk [] [⟨2, "1"⟩, ⟨1, "0"⟩] [] []) rfl rfl (by decide)⟩

/-- C9: saving a recipe whose short_code is already nonempty returns the
row unchanged; saving a recipe with an empty short_code assigns it a
generated, nonempty code at that first save, and every later save of the
saved row leaves the row, hence the code, unchanged. -/
theorem C9_short_code_assigned_once :
    (∀ (draws : Nat → Nat) (existing : List String) (fuel : Nat) (r : Recipe),
      r.short_code ≠ "" → Recipe.save draws existing fuel r = some r) ∧
    (∀ (draws : Nat → Nat) (existing : List String) (fuel : Nat) (r r2 : Recipe),
      r.short_code = "" → Recipe.save draws existing fuel r = some r2 →
        r2.short_code ≠ "" ∧
        ∀ (draws2 : Nat → Nat) (existing2 : List String) (fuel2 : Nat),
          Recipe.save draws2 existing2 fuel2 r2 = some r2) := by
  constructor
  · intro draws existing fuel r h
    unfold Recipe.save
    rw [if_neg h]
  · intro draws existing fuel r r2 hsc hsave
    unfold Recipe.save at hsave
    rw [if_pos hsc] at hsave
    rcases Option.map_eq_some'.mp hsave with ⟨c, hgen, hrc⟩
    have hne : r2.short_code ≠ "" := by
      rw [← hrc]
      exact generate_code_ne_empty draws existing fuel 0 c hgen
    refine ⟨hne, ?_⟩
    intro draws2 existing2 fuel2
    unfold Recipe.save
    rw [if_neg hne]

/-- C9 witness: a recipe already holding the code "abc" survives a save
unchanged; a recipe with an empty code receives the code "0" at its
first save and a further save keeps the row. -/
theorem C9_short_code_assigned_once_witness :
    (Recipe.mk 1 "abc").short_code ≠ "" ∧
    Recipe.save (fun k => k) [] 1 ⟨1, "abc"⟩ = some ⟨1, "abc"⟩ ∧
    (Recipe.mk 2 "").short_code = "" ∧
    (Recipe.mk 2 "0").short_code ≠ "" ∧
    Recipe.save (fun k => k) [] 1 ⟨2, "0"⟩ = some ⟨2, "0"⟩ :=
  ⟨by decide, C9_short_code_assigned_once.1 (fun k => k) [] 1 ⟨1, "abc"⟩ (by decide), rfl,
    (C9_short_code_assigned_once.2 (fun k => k) [] 1 ⟨2, ""⟩ ⟨2, "0"⟩ rfl rfl).1,
    (C9_short_code_assigned_once.2 (fun k => k) [] 1 ⟨2, ""⟩ ⟨2, "0"⟩ rfl rfl).2
      (fun k => k) [] 1⟩

/-- C10: a recipe write that passes the serializer validation has a
nonempty ingredient list with pairwise distinct ids, and the through
rows the write persists for the recipe are exactly one row per submitted
item, with pairwise distinct ingredient ids, even though the through
table itself carries no uniqueness constraint. -/
theorem C10_write_validation_unique_ingredients :
    ∀ (s : Store) (items : List IngredientItem) (tags : List Nat),
      RecipeSerializer.run_validation s items tags = .ok () →
        items ≠ [] ∧ (items.map IngredientItem.id).Nodup ∧
        ∀ (rId : Nat) (rows : List IngredientRecipe),
          ((RecipeSerializer.write_rows rId items rows).filter
            (fun ir => ir.recipeId == rId)).map IngredientRecipe.ingredientId
            = items.map (fun it => it.id.toNat) ∧
          (((RecipeSerializer.write_rows rId items rows).filter
            (fun ir => ir.recipeId == rId)).map IngredientRecipe.ingredientId).Nodup := by
  intro s items tags hok
  unfold RecipeSerializer.run_validation at hok
  have hvi : validate_items s items = .ok () := by
    cases hv : validate_items s items with
    | error e => rw [hv] at hok; cases hok
    | ok u => cases u; rfl
  rw [hvi] at hok
  unfold RecipeSerializer.validate at hok
  by_cases h1 : items.length = 0
  · rw [if_pos h1] at hok; cases hok
  rw [if_neg h1] at hok
  by_cases h2 : items.any (fun it => it.id == 0 || it.amount == 0)
  · rw [if_pos h2] at hok; cases hok
  rw [if_neg h2] at hok
  by_cases h3 : ¬ (items.map IngredientItem.id).Nodup
  · rw [if_pos h3] at hok; cases hok
  rw [if_neg h3] at hok
  have hnd : (items.map IngredientItem.id).Nodup := not_not.mp h3
  have hne : items ≠ [] := by
    intro hemp
    rw [hemp] at h1
    exact h1 rfl
  refine ⟨hne, hnd, ?_⟩
  intro rId rows
  have hfilter : (RecipeSerializer.write_rows rId items rows).filter
      (fun ir => ir.recipeId == rId) = RecipeSerializer.new_rows rId items := by
    unfold RecipeSerializer.write_rows
    rw [List.filter_append]
    have hold : (rows.filter (fun ir => ir.recipeId != rId)).filter
        (fun ir => ir.recipeId == rId) = [] := by
      rw [List.filter_eq_nil_iff]
      intro ir hir
      have hbne := (List.mem_filter.mp hir).2
      simp only [bne_iff_ne, ne_eq] at hbne
      simp only [beq_iff_eq]
      exact hbne
    have hnew : (RecipeSerializer.new_rows rId items).filter
        (fun ir => ir.recipeId == rId) = RecipeSerializer.new_rows rId items := by
      rw [List.filter_eq_self]
      intro ir hir
      unfold RecipeSerializer.new_rows at hir
      rcases List.mem_map.mp hir with ⟨it, _, hmk⟩
      rw [← hmk]
      exact beq_self_eq_true rId
    rw [hold, hnew, List.nil_append]
  rw [hfilter]
  have hmap : (RecipeSerializer.new_rows rId items).map IngredientRecipe.ingredientId
      = items.map (fun it => it.id.toNat) := by
    unfold RecipeSerializer.new_rows
    rw [List.map_map]
    rfl
  refine ⟨hmap, ?_⟩
  rw [hmap]
  have hnn : ∀ it ∈ items, 0 ≤ it.id := validate_items_nonneg s items hvi
  have hcomp : items.map (fun it => it.id.toNat)
      = (items.map IngredientItem.id).map Int.toNat := by
    rw [List.map_map]
    rfl
  rw [hcomp]
  apply hnd.map_on
  intro x hx y hy hxy
  rcases List.mem_map.mp hx with ⟨ix, hix, hxe⟩
  rcases List.mem_map.mp hy with ⟨iy, hiy, hye⟩
  have hx0 : 0 ≤ x := by rw [← hxe]; exact hnn ix hix
  have hy0 : 0 ≤ y := by rw [← hye]; exact hnn iy hiy
  calc x = (x.toNat : Int) := (Int.toNat_of_nonneg hx0).symm
    _ = (y.toNat : Int) := by rw [hxy]
    _ = y := Int.toNat_of_nonneg hy0

/-- C10 witness: a submission of two distinct existing ingredients passes
validation, and the persisted through rows for the written recipe are
exactly the two submitted ones, with distinct ingredient ids, also in a
table holding a row of another recipe. -/
theorem C10_write_validation_unique_ingredients_witness :
    RecipeSerializer.run_validation
      (Store.mk [⟨1, "Flour", "g"⟩, ⟨2, "Sugar", "g"⟩] [] [] [])
      [⟨1, 2⟩, ⟨2, 3⟩] [1] = .ok () ∧
    ([⟨1, 2⟩, ⟨2, 3⟩] : List IngredientItem) ≠ [] ∧
    (([⟨1, 2⟩, ⟨2, 3⟩] : List IngredientItem).map IngredientItem.id).Nodup ∧
    ((RecipeSerializer.write_rows 5 [⟨1, 2⟩, ⟨2, 3⟩] [⟨9, 4, 7⟩]).filter
      (fun ir => ir.recipeId == 5)).map IngredientRecipe.ingredientId
      = ([⟨1, 2⟩, ⟨2, 3⟩] : List IngredientItem).map (fun it => it.id.toNat) ∧
    (((RecipeSerializer.write_rows 5 [⟨1, 2⟩, ⟨2, 3⟩] [⟨9, 4, 7⟩]).filter
      (fun ir => ir.recipeId == 5)).map IngredientRecipe.ingredientId).Nodup :=
  have h := C10_write_validation_unique_ingredients
    (Store.mk [⟨1, "Flour", "g"⟩, ⟨2, "Sugar", "g"⟩] [] [] [])
    [⟨1, 2⟩, ⟨2, 3⟩] [1] rfl
  ⟨rfl, h.1, h.2.1, (h.2.2 5 [⟨9, 4, 7⟩]).1, (h.2.2 5 [⟨9, 4, 7⟩]).2⟩

end Foodgram
